import Mathlib

/-!
Shallow embedding of `src/movement/validators/datasets.py`: the attrs
classes `ValidPosesDataset` and `ValidBboxesDataset` together with the
module-level helper functions `_list_of_str`, `_ensure_type_ndarray`,
`_set_fps_to_none_if_invalid` and `_validate_list_length`.

Modelling conventions:
* A numpy array is a shape (list of axis sizes) plus a flat data list of
  scalars; a scalar is NaN or a rational (floats are modelled as `ℚ`).
* Python values that can reach the validators are an inductive `PyObj`
  (`None`, int, float, str, list, ndarray).
* attrs `__init__` semantics: converters run first, in field-definition
  order, then all field validators in field-definition order, then
  `__attrs_post_init__`; this matches the attrs-generated initializer
  (validators run after every attribute is assigned, which is why the
  validators here may read sibling fields).
* `log_warning` (from `movement.utils.logging`, an external collaborator)
  is modelled as an emitted list of `Warn` values; `log_error(E, msg)`
  raising is modelled as `Except.error`.
-/

/-- A numpy scalar: NaN (the "undefined" marker) or a rational number. -/
inductive Scalar where
  | nan : Scalar
  | rat : ℚ → Scalar
deriving DecidableEq

/-- A numpy ndarray: a shape together with the flat data buffer. -/
structure NDArray where
  shape : List Nat
  data : List Scalar
deriving DecidableEq

/-- `value.ndim` in numpy. -/
def NDArray.ndim (a : NDArray) : Nat := a.shape.length

/-- `value.shape[i]` for a nonnegative index (defaulting to 0 out of range;
all uses in the source are guarded by a rank check). -/
def NDArray.dim (a : NDArray) (i : Nat) : Nat := a.shape.getD i 0

/-- `value.shape[-1]`, used only after the rank check guarantees a
nonempty shape. -/
def NDArray.lastDim (a : NDArray) : Nat := a.shape.getD (a.shape.length - 1) 0

/-- `np.full(shape, np.nan, dtype="float32")`. -/
def npFullNaN (shape : List Nat) : NDArray :=
  ⟨shape, List.replicate shape.prod Scalar.nan⟩

/-- Python values that flow into the validators. -/
inductive PyObj where
  | none : PyObj
  | int : Int → PyObj
  | float : ℚ → PyObj
  | str : String → PyObj
  | list : List PyObj → PyObj
  | ndarray : NDArray → PyObj
/-- Python `type(v)` as rendered in error messages. -/
def PyObj.pyType : PyObj → String
  | .none => "<class NoneType>"
  | .int _ => "<class int>"
  | .float _ => "<class float>"
  | .str _ => "<class str>"
  | .list _ => "<class list>"
  | .ndarray _ => "<class numpy.ndarray>"

/-- Rendering of a scalar, as in `str()` of a numpy element. -/
def Scalar.render : Scalar → String
  | .nan => "nan"
  | .rat q => toString q

mutual

/-- Python `str(v)` (the model's string representation of a value). -/
def PyObj.pyStr : PyObj → String
  | .none => "None"
  | .int n => toString n
  | .float q => toString q
  | .str s => s
  | .list xs => "[" ++ pyStrList xs ++ "]"
  | .ndarray a =>
      "array(" ++ String.intercalate ", " (a.data.map Scalar.render) ++ ")"

/-- `str` of each element of a list, comma separated. -/
def pyStrList : List PyObj → String
  | [] => ""
  | [x] => PyObj.pyStr x
  | x :: xs => PyObj.pyStr x ++ ", " ++ pyStrList xs

end

/-- The axis-0 subarrays of an ndarray, i.e. the values produced by
iterating over it (empty shape means a 0-d array, which numpy refuses to
iterate). -/
def NDArray.subarrays (a : NDArray) : List PyObj :=
  match a.shape with
  | [] => []
  | _ :: rest =>
    let rowSize := rest.prod
    (List.range (a.shape.headD 0)).map fun i =>
      PyObj.ndarray ⟨rest, (a.data.drop (i * rowSize)).take rowSize⟩

/-- `isinstance(value, Iterable)` restricted to values that can actually be
iterated: strings, lists, and ndarrays of rank at least 1 (a 0-d ndarray is
modelled as non-iterable, since iterating it fails in numpy). -/
def PyObj.isIterable : PyObj → Bool
  | .str _ => true
  | .list _ => true
  | .ndarray a => !a.shape.isEmpty
  | _ => false

/-- `isinstance(value, str)`. -/
def PyObj.isStrB : PyObj → Bool
  | .str _ => true
  | _ => false

/-- Whether the value is Python `None`. -/
def PyObj.isNoneB : PyObj → Bool
  | .none => true
  | _ => false

/-- Python `value == s` for a string literal `s` (used for the
`source_software == "LightningPose"` comparison). -/
def PyObj.eqStr : PyObj → String → Bool
  | .str t, s => t = s
  | _, _ => false

/-- The elements obtained by iterating over an iterable value. -/
def PyObj.pyIter : PyObj → List PyObj
  | .str s => s.toList.map fun c => PyObj.str (String.singleton c)
  | .list xs => xs
  | .ndarray a => a.subarrays
  | _ => []

/-- Warnings emitted through `log_warning`, one constructor per call site. -/
inductive Warn where
  | expectedListOfStr (value : String) : Warn
  | invalidFps (fps : ℚ) : Warn
  | confidenceDefaulted : Warn
  | individualNamesDefaulted (names : List String) : Warn
  | keypointNamesDefaulted (names : List String) : Warn
deriving DecidableEq

/-- Python exceptions raised during construction. -/
inductive PyErr where
  | valueError (msg : String) : PyErr
  | typeError (msg : String) : PyErr
deriving DecidableEq

/-- `_list_of_str`: coerce a value into a list of strings.  A bare string
is wrapped into a singleton with a warning; any other iterable is mapped
through `str`; anything else raises `ValueError`. -/
def _list_of_str (value : PyObj) : Except PyErr (List String × List Warn) :=
  match value with
  | .str s => .ok ([s], [Warn.expectedListOfStr s])
  | v =>
    if v.isIterable then .ok (v.pyIter.map PyObj.pyStr, [])
    else .error (.valueError
      ("Invalid value (" ++ v.pyStr ++ "). Expected a list of strings."))

/-- `_ensure_type_ndarray`: raise `ValueError` if the value is not a numpy
array (returning the array itself for use at the call site). -/
def _ensure_type_ndarray (value : PyObj) : Except PyErr NDArray :=
  match value with
  | .ndarray a => .ok a
  | v => .error (.valueError
      ("Expected a numpy array, but got " ++ v.pyType ++ "."))

/-- `_set_fps_to_none_if_invalid`: replace a non-positive fps by `None`
with a warning. -/
def _set_fps_to_none_if_invalid (fps : Option ℚ) : Option ℚ × List Warn :=
  match fps with
  | some q => if q ≤ 0 then (none, [Warn.invalidFps q]) else (some q, [])
  | none => (none, [])

/-- A plain decimal literal parser covering the `float(str)` coercions the
validators can meet (optional sign, digits, optional fractional part). -/
def parseDecimal (s : String) : Option ℚ :=
  let (neg, t) := if s.startsWith "-" then (true, s.drop 1) else (false, s)
  let sign : ℚ → ℚ := fun q => if neg then -q else q
  match t.splitOn "." with
  | [ip] => (ip.toNat?).map fun n => sign n
  | [ip, fp] =>
    match ip.toNat?, fp.toNat? with
    | some n, some f => some (sign ((n : ℚ) + (f : ℚ) / ((10 : ℚ) ^ fp.length)))
    | _, _ => none
  | _ => none

/-- Python `float(value)` on the value kinds of this model. -/
def pyFloat : PyObj → Except PyErr ℚ
  | .float q => .ok q
  | .int n => .ok (n : ℚ)
  | .str s =>
    match parseDecimal s with
    | some q => .ok q
    | none => .error (.valueError ("could not convert string to float: " ++ s))
  | v => .error (.typeError
      ("float() argument must be a string or a real number, not " ++ v.pyType))

/-- `converters.optional(_list_of_str)`: `None` passes through untouched. -/
def _list_of_str_opt (value : PyObj) :
    Except PyErr (Option (List String) × List Warn) :=
  match value with
  | .none => .ok (Option.none, [])
  | v => (_list_of_str v).map fun p => (some p.1, p.2)

/-- `converters.pipe(converters.optional(float), _set_fps_to_none_if_invalid)`. -/
def fpsConverter (value : PyObj) : Except PyErr (Option ℚ × List Warn) :=
  match value with
  | .none => .ok (Option.none, [])
  | v => (pyFloat v).map fun q => _set_fps_to_none_if_invalid (some q)

/-- `_validate_list_length`: `ValueError` when the list is present and its
length differs from the expected one; absence is accepted. -/
def _validate_list_length (attr : String) (value : Option (List String))
    (expected_length : Nat) : Except PyErr Unit :=
  match value with
  | some l =>
    if l.length ≠ expected_length then
      .error (.valueError
        ("Expected `" ++ attr ++ "` to have length "
          ++ toString expected_length ++ ", but got "
          ++ toString l.length ++ "."))
    else .ok ()
  | none => .ok ()

/-- `validators.optional(validators.instance_of(str))` (used on
`source_software` in both classes); attrs raises `TypeError` on a type
mismatch. -/
def validateOptionalStr (attr : String) (value : PyObj) :
    Except PyErr (Option String) :=
  match value with
  | .none => .ok Option.none
  | .str s => .ok (some s)
  | v => .error (.typeError
      ("`" ++ attr ++ "` must be <class str> (got " ++ v.pyStr
        ++ " that is a " ++ v.pyType ++ ")."))

/-- The fully constructed `ValidPosesDataset` record (after validation and
`__attrs_post_init__` defaulting every optional field is populated, except
`fps` and `source_software` which legitimately remain `None`). -/
structure ValidPosesDataset where
  position_array : NDArray
  confidence_array : NDArray
  individual_names : List String
  keypoint_names : List String
  fps : Option ℚ
  source_software : Option String
deriving DecidableEq

/-- `ValidPosesDataset._validate_position_array`: ndarray, rank 4,
trailing axis 2 or 3. -/
def ValidPosesDataset._validate_position_array (value : PyObj) :
    Except PyErr NDArray := do
  let a ← _ensure_type_ndarray value
  if a.ndim ≠ 4 then
    .error (.valueError
      ("Expected `position_array` to have 4 dimensions, but got "
        ++ toString a.ndim ++ "."))
  else if a.lastDim ∉ ([2, 3] : List Nat) then
    .error (.valueError
      ("Expected `position_array` to have 2 or 3 spatial dimensions, "
        ++ "but got " ++ toString a.lastDim ++ "."))
  else
    .ok a

/-- `ValidPosesDataset._validate_confidence_array`: if present, an ndarray
whose shape equals the position shape minus its last axis. -/
def ValidPosesDataset._validate_confidence_array (position : NDArray)
    (value : PyObj) : Except PyErr (Option NDArray) :=
  match value with
  | .none => .ok Option.none
  | v => do
    let c ← _ensure_type_ndarray v
    let expected := position.shape.dropLast
    if c.shape ≠ expected then
      .error (.valueError
        ("Expected `confidence_array` to have shape " ++ toString expected
          ++ ", but got " ++ toString c.shape ++ "."))
    else
      .ok (some c)

/-- `ValidPosesDataset._validate_individual_names`: expected length 1 for
LightningPose, else `position_array.shape[1]`. -/
def ValidPosesDataset._validate_individual_names (source_software : PyObj)
    (position : NDArray) (value : Option (List String)) :
    Except PyErr Unit :=
  if source_software.eqStr "LightningPose" then
    _validate_list_length "individual_names" value 1
  else
    _validate_list_length "individual_names" value (position.dim 1)

/-- `ValidPosesDataset._validate_keypoint_names`: expected length
`position_array.shape[2]`. -/
def ValidPosesDataset._validate_keypoint_names (position : NDArray)
    (value : Option (List String)) : Except PyErr Unit :=
  _validate_list_length "keypoint_names" value (position.dim 2)

/-- Construction of a `ValidPosesDataset`: converters in field order, then
validators in field order, then `__attrs_post_init__` defaulting.  An
argument given as `PyObj.none` is the same as an omitted one (every
optional field defaults to `None`). -/
def ValidPosesDataset.build (position_array confidence_array
    individual_names keypoint_names fps source_software : PyObj) :
    Except PyErr (ValidPosesDataset × List Warn) := do
  let (indiv, w1) ← _list_of_str_opt individual_names
  let (keyp, w2) ← _list_of_str_opt keypoint_names
  let (fpsV, w3) ← fpsConverter fps
  let posA ← ValidPosesDataset._validate_position_array position_array
  let confA ← ValidPosesDataset._validate_confidence_array posA confidence_array
  ValidPosesDataset._validate_individual_names source_software posA indiv
  ValidPosesDataset._validate_keypoint_names posA keyp
  let srcV ← validateOptionalStr "source_software" source_software
  let (confF, w4) :=
    match confA with
    | some c => (c, ([] : List Warn))
    | Option.none =>
      (npFullNaN posA.shape.dropLast, [Warn.confidenceDefaulted])
  let (indivF, w5) :=
    match indiv with
    | some l => (l, ([] : List Warn))
    | Option.none =>
      let l := (List.range (posA.dim 1)).map fun i =>
        "individual_" ++ toString i
      (l, [Warn.individualNamesDefaulted l])
  let (keypF, w6) :=
    match keyp with
    | some l => (l, ([] : List Warn))
    | Option.none =>
      let l := (List.range (posA.dim 2)).map fun i =>
        "keypoint_" ++ toString i
      (l, [Warn.keypointNamesDefaulted l])
  .ok (⟨posA, confF, indivF, keypF, fpsV, srcV⟩, w1 ++ w2 ++ w3 ++ w4 ++ w5 ++ w6)

/-- The fully constructed `ValidBboxesDataset` record.  `individual_names`
stays an `Option`: the attrs field is required at call time but its
converter is `optional`, so an explicitly supplied `None` survives
construction (there is no defaulting step for it). -/
structure ValidBboxesDataset where
  position_array : NDArray
  shape_array : NDArray
  individual_names : Option (List String)
  confidence_array : NDArray
  fps : Option ℚ
  source_software : Option String
deriving DecidableEq

/-- `ValidBboxesDataset._validate_centroid_position_and_shape_arrays`:
ndarray, rank 3, trailing axis exactly 2 (applied to both
`position_array` and `shape_array`). -/
def ValidBboxesDataset._validate_centroid_position_and_shape_arrays
    (attr : String) (value : PyObj) : Except PyErr NDArray := do
  let a ← _ensure_type_ndarray value
  if a.ndim ≠ 3 then
    .error (.valueError
      ("Expected `" ++ attr ++ "` to have 3 dimensions, but got "
        ++ toString a.ndim ++ "."))
  else if a.lastDim ≠ 2 then
    .error (.valueError
      ("Expected `" ++ attr ++ "` to have 2 spatial coordinates, "
        ++ "but got " ++ toString a.lastDim ++ "."))
  else
    .ok a

/-- `ValidBboxesDataset._validate_individual_names`: expected length
`position_array.shape[1]` (no source-software special case). -/
def ValidBboxesDataset._validate_individual_names (position : NDArray)
    (value : Option (List String)) : Except PyErr Unit :=
  _validate_list_length "individual_names" value (position.dim 1)

/-- `ValidBboxesDataset._validate_confidence_array`: same check as the
poses one, shape derived from the (centroid) `position_array`. -/
def ValidBboxesDataset._validate_confidence_array (position : NDArray)
    (value : PyObj) : Except PyErr (Option NDArray) :=
  match value with
  | .none => .ok Option.none
  | v => do
    let c ← _ensure_type_ndarray v
    let expected := position.shape.dropLast
    if c.shape ≠ expected then
      .error (.valueError
        ("Expected `confidence_array` to have shape " ++ toString expected
          ++ ", but got " ++ toString c.shape ++ "."))
    else
      .ok (some c)

/-- Construction of a `ValidBboxesDataset`.  `individual_names` is a
required keyword-only argument with no default, so `Option.none` here means
the caller omitted it, which raises `TypeError` before any converter runs;
`some v` is an explicitly supplied value (possibly `PyObj.none`). -/
def ValidBboxesDataset.build (position_array shape_array : PyObj)
    (individual_names : Option PyObj)
    (confidence_array fps source_software : PyObj) :
    Except PyErr (ValidBboxesDataset × List Warn) := do
  let namesArg ← match individual_names with
    | Option.none => Except.error (PyErr.typeError
        ("ValidBboxesDataset.__init__() missing 1 required keyword-only "
          ++ "argument: individual_names"))
    | some v => Except.ok v
  let (names, w1) ← _list_of_str_opt namesArg
  let (fpsV, w2) ← fpsConverter fps
  let posA ← ValidBboxesDataset._validate_centroid_position_and_shape_arrays
    "position_array" position_array
  let shpA ← ValidBboxesDataset._validate_centroid_position_and_shape_arrays
    "shape_array" shape_array
  ValidBboxesDataset._validate_individual_names posA names
  let confA ← ValidBboxesDataset._validate_confidence_array posA confidence_array
  let srcV ← validateOptionalStr "source_software" source_software
  let (confF, w3) :=
    match confA with
    | some c => (c, ([] : List Warn))
    | Option.none =>
      (npFullNaN posA.shape.dropLast, [Warn.confidenceDefaulted])
  .ok (⟨posA, shpA, names, confF, fpsV, srcV⟩, w1 ++ w2 ++ w3)

/-- `Except.isOk` specialised to the builders (a successful construction). -/
def exceptOk {α : Type} (e : Except PyErr α) : Bool :=
  match e with
  | .ok _ => true
  | .error _ => false

/-! ### Helper lemmas -/

@[simp] lemma exceptOkBind {α β : Type} (a : α) (f : α → Except PyErr β) :
    (Except.ok a : Except PyErr α) >>= f = f a := rfl

@[simp] lemma exceptErrBind {α β : Type} (e : PyErr) (f : α → Except PyErr β) :
    (Except.error e : Except PyErr α) >>= f = Except.error e := rfl

/-- Injection of a stored fps field back into a Python value (used to feed
a record's field values back to the constructor). -/
def fpsObj : Option ℚ → PyObj
  | Option.none => PyObj.none
  | some q => PyObj.float q

/-- Injection of a stored source-software field back into a Python value. -/
def srcObj : Option String → PyObj
  | Option.none => PyObj.none
  | some s => PyObj.str s

lemma list_of_str_strs (l : List String) :
    _list_of_str (PyObj.list (l.map PyObj.str)) = .ok (l, []) := by
  cases l with
  | nil => rfl
  | cons x xs =>
    simp [_list_of_str, PyObj.isIterable, PyObj.pyIter, PyObj.pyStr]
    induction xs with
    | nil => rfl
    | cons y ys ih => simp_all [PyObj.pyStr]

lemma list_of_str_opt_strs (l : List String) :
    _list_of_str_opt (PyObj.list (l.map PyObj.str)) = .ok (some l, []) := by
  show (_list_of_str (PyObj.list (l.map PyObj.str))).map
    (fun p => (some p.1, p.2)) = _
  rw [list_of_str_strs]
  rfl

lemma fpsConverter_none : fpsConverter PyObj.none = .ok (Option.none, []) := rfl

lemma fpsConverter_pos {q : ℚ} (hq : 0 < q) :
    fpsConverter (PyObj.float q) = .ok (some q, []) := by
  simp [fpsConverter, pyFloat, _set_fps_to_none_if_invalid, not_le.mpr hq,
    Except.map]

lemma fpsConverter_nonpos {q : ℚ} (hq : q ≤ 0) :
    fpsConverter (PyObj.float q) = .ok (Option.none, [Warn.invalidFps q]) := by
  simp [fpsConverter, pyFloat, _set_fps_to_none_if_invalid, hq, Except.map]

lemma fpsObj_conv (fps : Option ℚ) (h : ∀ q ∈ fps, 0 < q) :
    fpsConverter (fpsObj fps) = .ok (fps, []) := by
  cases fps with
  | none => rfl
  | some q => exact fpsConverter_pos (h q rfl)

lemma srcObj_validate (src : Option String) :
    validateOptionalStr "source_software" (srcObj src) = .ok src := by
  cases src <;> rfl

lemma srcObj_eqStr (src : Option String) (s : String) :
    (srcObj src).eqStr s = true ↔ src = some s := by
  cases src <;> simp [srcObj, PyObj.eqStr]

lemma validate_position_ok {p : NDArray} (h4 : p.ndim = 4)
    (hs : p.lastDim = 2 ∨ p.lastDim = 3) :
    ValidPosesDataset._validate_position_array (PyObj.ndarray p) = .ok p := by
  simp [ValidPosesDataset._validate_position_array, _ensure_type_ndarray, h4]
  rcases hs with h | h <;> simp [h]

lemma validate_bbox_array_ok {p : NDArray} (attr : String) (h3 : p.ndim = 3)
    (hs : p.lastDim = 2) :
    ValidBboxesDataset._validate_centroid_position_and_shape_arrays attr
      (PyObj.ndarray p) = .ok p := by
  simp [ValidBboxesDataset._validate_centroid_position_and_shape_arrays,
    _ensure_type_ndarray, h3, hs]

lemma validate_confidence_ok {p c : NDArray}
    (hc : c.shape = p.shape.dropLast) :
    ValidPosesDataset._validate_confidence_array p (PyObj.ndarray c) =
      .ok (some c) := by
  simp [ValidPosesDataset._validate_confidence_array, _ensure_type_ndarray, hc]

lemma validate_bbox_confidence_ok {p c : NDArray}
    (hc : c.shape = p.shape.dropLast) :
    ValidBboxesDataset._validate_confidence_array p (PyObj.ndarray c) =
      .ok (some c) := by
  simp [ValidBboxesDataset._validate_confidence_array, _ensure_type_ndarray, hc]

/-- Evaluation of `ValidPosesDataset.build` once every stage's result is
known: the record is assembled from the stage outputs and the defaulting
step fills the still-absent fields. -/
lemma buildPoses_eval {pa ca ia ka fa sa : PyObj} {p : NDArray}
    {conf : Option NDArray} {ind keyp : Option (List String)}
    {wi wk wf : List Warn} {fv : Option ℚ} {sv : Option String}
    (hia : _list_of_str_opt ia = .ok (ind, wi))
    (hka : _list_of_str_opt ka = .ok (keyp, wk))
    (hfa : fpsConverter fa = .ok (fv, wf))
    (hpa : ValidPosesDataset._validate_position_array pa = .ok p)
    (hca : ValidPosesDataset._validate_confidence_array p ca = .ok conf)
    (hiv : ValidPosesDataset._validate_individual_names sa p ind = .ok ())
    (hkv : ValidPosesDataset._validate_keypoint_names p keyp = .ok ())
    (hsa : validateOptionalStr "source_software" sa = .ok sv) :
    ValidPosesDataset.build pa ca ia ka fa sa =
      .ok (⟨p,
            conf.getD (npFullNaN p.shape.dropLast),
            ind.getD ((List.range (p.dim 1)).map fun i =>
              "individual_" ++ toString i),
            keyp.getD ((List.range (p.dim 2)).map fun i =>
              "keypoint_" ++ toString i),
            fv, sv⟩,
        wi ++ wk ++ wf
          ++ (match conf with
              | some _ => []
              | Option.none => [Warn.confidenceDefaulted])
          ++ (match ind with
              | some _ => []
              | Option.none => [Warn.individualNamesDefaulted
                  ((List.range (p.dim 1)).map fun i =>
                    "individual_" ++ toString i)])
          ++ (match keyp with
              | some _ => []
              | Option.none => [Warn.keypointNamesDefaulted
                  ((List.range (p.dim 2)).map fun i =>
                    "keypoint_" ++ toString i)])) := by
  simp only [ValidPosesDataset.build, hia, hka, hfa, hpa, hca, hiv, hkv, hsa,
    exceptOkBind]
  cases conf <;> cases ind <;> cases keyp <;> rfl

lemma list_length_inv {attr : String} {v : Option (List String)} {n : Nat}
    (h : _validate_list_length attr v n = .ok ()) : ∀ l ∈ v, l.length = n := by
  intro l hl
  cases v with
  | none => cases hl
  | some l' =>
    obtain rfl : l' = l := by simpa [Option.mem_def] using hl
    by_contra hne
    simp [_validate_list_length, hne] at h

lemma isNoneB_true {v : PyObj} (h : v.isNoneB = true) : v = PyObj.none := by
  cases v <;> simp [PyObj.isNoneB] at h ⊢

lemma list_opt_eq {v : PyObj} (hv : v.isNoneB = false) :
    _list_of_str_opt v = (_list_of_str v).map fun p => (some p.1, p.2) := by
  cases v <;> first | rfl | simp [PyObj.isNoneB] at hv

lemma list_opt_inv {v : PyObj} {o : Option (List String)} {w : List Warn}
    (h : _list_of_str_opt v = .ok (o, w)) (hv : v.isNoneB = false) :
    ∃ l, o = some l := by
  rw [list_opt_eq hv] at h
  cases hx : _list_of_str v with
  | error e => simp [hx, Except.map] at h
  | ok p =>
    simp [hx, Except.map] at h
    exact ⟨p.1, h.1.symm⟩

lemma fps_eq {fa : PyObj} (hfa : fa.isNoneB = false) :
    fpsConverter fa =
      (pyFloat fa).map fun q => _set_fps_to_none_if_invalid (some q) := by
  cases fa <;> first | rfl | simp [PyObj.isNoneB] at hfa

lemma fps_inv {fa : PyObj} {fv : Option ℚ} {wf : List Warn}
    (h : fpsConverter fa = .ok (fv, wf)) : ∀ q ∈ fv, 0 < q := by
  intro q hq
  by_cases hv : fa.isNoneB = true
  · rw [isNoneB_true hv] at h
    simp [fpsConverter] at h
    rw [← h.1] at hq
    cases hq
  · rw [fps_eq (by simpa using hv)] at h
    cases hx : pyFloat fa with
    | error e => simp [hx, Except.map] at h
    | ok q1 =>
      simp [hx, Except.map] at h
      by_cases hle : q1 ≤ 0
      · simp [_set_fps_to_none_if_invalid, hle] at h
        rw [← h.1] at hq
        cases hq
      · simp [_set_fps_to_none_if_invalid, hle] at h
        rw [← h.1] at hq
        obtain rfl : q1 = q := by simpa [Option.mem_def] using hq
        exact lt_of_not_le hle

lemma validate_position_inv {v : PyObj} {a : NDArray}
    (h : ValidPosesDataset._validate_position_array v = .ok a) :
    v = PyObj.ndarray a ∧ a.ndim = 4 ∧ (a.lastDim = 2 ∨ a.lastDim = 3) := by
  cases v with
  | ndarray p =>
    simp only [ValidPosesDataset._validate_position_array,
      _ensure_type_ndarray, exceptOkBind] at h
    by_cases h4 : p.ndim = 4
    · rw [if_neg (by simp [h4])] at h
      by_cases hsp : p.lastDim ∈ ([2, 3] : List Nat)
      · rw [if_neg (not_not_intro hsp)] at h
        obtain rfl : p = a := by simpa using h
        refine ⟨rfl, h4, by simpa using hsp⟩
      · rw [if_pos (by simpa using hsp)] at h
        cases h
    · rw [if_pos (by simp [h4])] at h
      cases h
  | none => cases h
  | int n => cases h
  | float q => cases h
  | str s => cases h
  | list xs => cases h

lemma validate_confidence_inv {p : NDArray} {ca : PyObj} {o : Option NDArray}
    (h : ValidPosesDataset._validate_confidence_array p ca = .ok o) :
    ∀ c ∈ o, c.shape = p.shape.dropLast ∧ ca = PyObj.ndarray c := by
  intro c hc
  cases ca with
  | ndarray b =>
    simp only [ValidPosesDataset._validate_confidence_array,
      _ensure_type_ndarray, exceptOkBind] at h
    by_cases hsh : b.shape = p.shape.dropLast
    · rw [if_neg (by simpa using hsh)] at h
      obtain rfl : some b = o := by simpa using h
      obtain rfl : b = c := by simpa [Option.mem_def] using hc
      exact ⟨hsh, rfl⟩
    · rw [if_pos (by simpa using hsh)] at h
      cases h
  | none =>
    obtain rfl : (Option.none : Option NDArray) = o := by
      simpa [ValidPosesDataset._validate_confidence_array] using h
    cases hc
  | int n => cases h
  | float q => cases h
  | str s => cases h
  | list xs => cases h

lemma validate_src_inv {attr : String} {sa : PyObj} {sv : Option String}
    (h : validateOptionalStr attr sa = .ok sv) : sa = srcObj sv := by
  cases sa with
  | none =>
    obtain rfl : (Option.none : Option String) = sv := by
      simpa [validateOptionalStr] using h
    rfl
  | str s =>
    obtain rfl : some s = sv := by simpa [validateOptionalStr] using h
    rfl
  | int n => cases h
  | float q => cases h
  | list xs => cases h
  | ndarray a => cases h

/-- Inversion of a successful `ValidPosesDataset.build`: every stage
returned ok and the record is assembled from the stage outputs. -/
lemma buildPoses_ok_elim {pa ca ia ka fa sa : PyObj} {r : ValidPosesDataset}
    {w : List Warn}
    (h : ValidPosesDataset.build pa ca ia ka fa sa = .ok (r, w)) :
    ∃ p conf ind keyp wi wk wf fv sv,
      _list_of_str_opt ia = .ok (ind, wi) ∧
      _list_of_str_opt ka = .ok (keyp, wk) ∧
      fpsConverter fa = .ok (fv, wf) ∧
      ValidPosesDataset._validate_position_array pa = .ok p ∧
      ValidPosesDataset._validate_confidence_array p ca = .ok conf ∧
      ValidPosesDataset._validate_individual_names sa p ind = .ok () ∧
      ValidPosesDataset._validate_keypoint_names p keyp = .ok () ∧
      validateOptionalStr "source_software" sa = .ok sv ∧
      r = ⟨p, conf.getD (npFullNaN p.shape.dropLast),
            ind.getD ((List.range (p.dim 1)).map fun i =>
              "individual_" ++ toString i),
            keyp.getD ((List.range (p.dim 2)).map fun i =>
              "keypoint_" ++ toString i),
            fv, sv⟩ := by
  unfold ValidPosesDataset.build at h
  cases hia : _list_of_str_opt ia with
  | error e => rw [hia] at h; simp at h
  | ok x =>
  obtain ⟨ind, wi⟩ := x
  rw [hia] at h
  simp only [exceptOkBind] at h
  cases hka : _list_of_str_opt ka with
  | error e => rw [hka] at h; simp at h
  | ok y =>
  obtain ⟨keyp, wk⟩ := y
  rw [hka] at h
  simp only [exceptOkBind] at h
  cases hfa : fpsConverter fa with
  | error e => rw [hfa] at h; simp at h
  | ok z =>
  obtain ⟨fv, wf⟩ := z
  rw [hfa] at h
  simp only [exceptOkBind] at h
  cases hpa : ValidPosesDataset._validate_position_array pa with
  | error e => rw [hpa] at h; simp at h
  | ok p =>
  rw [hpa] at h
  simp only [exceptOkBind] at h
  cases hca : ValidPosesDataset._validate_confidence_array p ca with
  | error e => rw [hca] at h; simp at h
  | ok conf =>
  rw [hca] at h
  simp only [exceptOkBind] at h
  cases hiv : ValidPosesDataset._validate_individual_names sa p ind with
  | error e => rw [hiv] at h; simp at h
  | ok u =>
  obtain ⟨⟩ := u
  rw [hiv] at h
  simp only [exceptOkBind] at h
  cases hkv : ValidPosesDataset._validate_keypoint_names p keyp with
  | error e => rw [hkv] at h; simp at h
  | ok u =>
  obtain ⟨⟩ := u
  rw [hkv] at h
  simp only [exceptOkBind] at h
  cases hsa : validateOptionalStr "source_software" sa with
  | error e => rw [hsa] at h; simp at h
  | ok sv =>
  rw [hsa] at h
  simp only [exceptOkBind] at h
  refine ⟨p, conf, ind, keyp, wi, wk, wf, fv, sv,
    rfl, rfl, rfl, rfl, hca, hiv, hkv, rfl, ?_⟩
  cases conf <;> cases ind <;> cases keyp <;> simp_all

lemma exceptOk_true {α : Type} {e : Except PyErr α} :
    exceptOk e = true ↔ ∃ a, e = .ok a := by
  cases e <;> simp [exceptOk]

lemma list_length_ok {attr : String} {l : List String} {n : Nat}
    (h : l.length = n) : _validate_list_length attr (some l) n = .ok () := by
  simp [_validate_list_length, h]

lemma validate_indnames_none (sa : PyObj) (p : NDArray) :
    ValidPosesDataset._validate_individual_names sa p Option.none = .ok () := by
  unfold ValidPosesDataset._validate_individual_names
  split <;> rfl

lemma validate_keypnames_none (p : NDArray) :
    ValidPosesDataset._validate_keypoint_names p Option.none = .ok () := rfl

lemma validate_indnames_LP_ok {l : List String} (p : NDArray)
    (h : l.length = 1) :
    ValidPosesDataset._validate_individual_names (PyObj.str "LightningPose") p
      (some l) = .ok () := by
  simp [ValidPosesDataset._validate_individual_names, PyObj.eqStr,
    list_length_ok h]

lemma validate_indnames_LP_fail {l : List String} (p : NDArray)
    (h : l.length ≠ 1) :
    ValidPosesDataset._validate_individual_names (PyObj.str "LightningPose") p
      (some l) =
      .error (.valueError ("Expected `individual_names` to have length 1, "
        ++ "but got " ++ toString l.length ++ ".")) := by
  simp [ValidPosesDataset._validate_individual_names, PyObj.eqStr,
    _validate_list_length, h]
  rfl

lemma validate_indnames_gen_ok {sa : PyObj} {l : List String} {p : NDArray}
    (hsa : sa.eqStr "LightningPose" = false) (h : l.length = p.dim 1) :
    ValidPosesDataset._validate_individual_names sa p (some l) = .ok () := by
  simp [ValidPosesDataset._validate_individual_names, hsa, list_length_ok h]

lemma validate_indnames_gen_fail {sa : PyObj} {l : List String} {p : NDArray}
    (hsa : sa.eqStr "LightningPose" = false) (h : l.length ≠ p.dim 1) :
    ValidPosesDataset._validate_individual_names sa p (some l) =
      .error (.valueError ("Expected `individual_names` to have length "
        ++ toString (p.dim 1) ++ ", but got " ++ toString l.length ++ ".")) := by
  simp [ValidPosesDataset._validate_individual_names, hsa,
    _validate_list_length, h]

lemma validate_keypnames_ok {l : List String} {p : NDArray}
    (h : l.length = p.dim 2) :
    ValidPosesDataset._validate_keypoint_names p (some l) = .ok () := by
  simp [ValidPosesDataset._validate_keypoint_names, list_length_ok h]

lemma validate_position_fail_rank {p : NDArray} (h : p.ndim ≠ 4) :
    ValidPosesDataset._validate_position_array (PyObj.ndarray p) =
      .error (.valueError ("Expected `position_array` to have 4 dimensions, "
        ++ "but got " ++ toString p.ndim ++ ".")) := by
  simp [ValidPosesDataset._validate_position_array, _ensure_type_ndarray, h]

lemma validate_position_fail_spatial {p : NDArray} (h4 : p.ndim = 4)
    (hs : p.lastDim ∉ ([2, 3] : List Nat)) :
    ValidPosesDataset._validate_position_array (PyObj.ndarray p) =
      .error (.valueError
        ("Expected `position_array` to have 2 or 3 spatial dimensions, "
          ++ "but got " ++ toString p.lastDim ++ ".")) := by
  simp only [ValidPosesDataset._validate_position_array,
    _ensure_type_ndarray, exceptOkBind]
  rw [if_neg (by simp [h4]), if_pos hs]

lemma validate_confidence_fail {p c : NDArray}
    (h : c.shape ≠ p.shape.dropLast) :
    ValidPosesDataset._validate_confidence_array p (PyObj.ndarray c) =
      .error (.valueError ("Expected `confidence_array` to have shape "
        ++ toString p.shape.dropLast ++ ", but got "
        ++ toString c.shape ++ ".")) := by
  simp [ValidPosesDataset._validate_confidence_array, _ensure_type_ndarray, h]

lemma buildPoses_err_ia {pa ca ia ka fa sa : PyObj} {e : PyErr}
    (hia : _list_of_str_opt ia = .error e) :
    ValidPosesDataset.build pa ca ia ka fa sa = .error e := by
  unfold ValidPosesDataset.build
  rw [hia]
  rfl

lemma buildPoses_err_ka {pa ca ia ka fa sa : PyObj} {e : PyErr}
    {ind : Option (List String)} {wi : List Warn}
    (hia : _list_of_str_opt ia = .ok (ind, wi))
    (hka : _list_of_str_opt ka = .error e) :
    ValidPosesDataset.build pa ca ia ka fa sa = .error e := by
  unfold ValidPosesDataset.build
  rw [hia, hka]
  rfl

lemma buildPoses_err_fa {pa ca ia ka fa sa : PyObj} {e : PyErr}
    {ind keyp : Option (List String)} {wi wk : List Warn}
    (hia : _list_of_str_opt ia = .ok (ind, wi))
    (hka : _list_of_str_opt ka = .ok (keyp, wk))
    (hfa : fpsConverter fa = .error e) :
    ValidPosesDataset.build pa ca ia ka fa sa = .error e := by
  unfold ValidPosesDataset.build
  rw [hia, hka, hfa]
  rfl

lemma buildPoses_err_pos {pa ca ia ka fa sa : PyObj} {e : PyErr}
    {ind keyp : Option (List String)} {wi wk : List Warn}
    {fv : Option ℚ} {wf : List Warn}
    (hia : _list_of_str_opt ia = .ok (ind, wi))
    (hka : _list_of_str_opt ka = .ok (keyp, wk))
    (hfa : fpsConverter fa = .ok (fv, wf))
    (hpa : ValidPosesDataset._validate_position_array pa = .error e) :
    ValidPosesDataset.build pa ca ia ka fa sa = .error e := by
  unfold ValidPosesDataset.build
  rw [hia, hka, hfa, hpa]
  rfl

lemma buildPoses_err_conf {pa ca ia ka fa sa : PyObj} {e : PyErr}
    {ind keyp : Option (List String)} {wi wk : List Warn}
    {fv : Option ℚ} {wf : List Warn} {p : NDArray}
    (hia : _list_of_str_opt ia = .ok (ind, wi))
    (hka : _list_of_str_opt ka = .ok (keyp, wk))
    (hfa : fpsConverter fa = .ok (fv, wf))
    (hpa : ValidPosesDataset._validate_position_array pa = .ok p)
    (hca : ValidPosesDataset._validate_confidence_array p ca = .error e) :
    ValidPosesDataset.build pa ca ia ka fa sa = .error e := by
  unfold ValidPosesDataset.build
  rw [hia, hka, hfa, hpa]
  simp only [exceptOkBind]
  rw [hca]
  rfl

lemma buildPoses_err_ind {pa ca ia ka fa sa : PyObj} {e : PyErr}
    {ind keyp : Option (List String)} {wi wk : List Warn}
    {fv : Option ℚ} {wf : List Warn} {p : NDArray} {conf : Option NDArray}
    (hia : _list_of_str_opt ia = .ok (ind, wi))
    (hka : _list_of_str_opt ka = .ok (keyp, wk))
    (hfa : fpsConverter fa = .ok (fv, wf))
    (hpa : ValidPosesDataset._validate_position_array pa = .ok p)
    (hca : ValidPosesDataset._validate_confidence_array p ca = .ok conf)
    (hiv : ValidPosesDataset._validate_individual_names sa p ind = .error e) :
    ValidPosesDataset.build pa ca ia ka fa sa = .error e := by
  unfold ValidPosesDataset.build
  rw [hia, hka, hfa, hpa]
  simp only [exceptOkBind]
  rw [hca]
  simp only [exceptOkBind]
  rw [hiv]
  rfl

/-- C1: for every rank-4 position array whose last axis has size 2 or 3,
constructing a PosesRecord with all optional fields absent succeeds; the
confidence array is `position.shape` minus the last axis, filled with the
NaN marker, and the names default to the generated
`individual_i` / `keypoint_i` sequences. -/
theorem claim_C1 (p : NDArray) (h4 : p.ndim = 4)
    (hs : p.lastDim = 2 ∨ p.lastDim = 3) :
    ValidPosesDataset.build (PyObj.ndarray p) PyObj.none PyObj.none
      PyObj.none PyObj.none PyObj.none =
      .ok (⟨p, npFullNaN p.shape.dropLast,
            (List.range (p.dim 1)).map (fun i => "individual_" ++ toString i),
            (List.range (p.dim 2)).map (fun i => "keypoint_" ++ toString i),
            Option.none, Option.none⟩,
        [Warn.confidenceDefaulted,
          Warn.individualNamesDefaulted
            ((List.range (p.dim 1)).map fun i => "individual_" ++ toString i),
          Warn.keypointNamesDefaulted
            ((List.range (p.dim 2)).map fun i => "keypoint_" ++ toString i)]) := by
  have hia : _list_of_str_opt PyObj.none = .ok (Option.none, []) := rfl
  have hfa : fpsConverter PyObj.none = .ok (Option.none, []) := rfl
  have hca : ValidPosesDataset._validate_confidence_array p PyObj.none =
      .ok Option.none := rfl
  have hsa : validateOptionalStr "source_software" PyObj.none =
      .ok Option.none := rfl
  have h := buildPoses_eval hia hia hfa (validate_position_ok h4 hs) hca
    (validate_indnames_none PyObj.none p) (validate_keypnames_none p) hsa
  simpa using h

/-- C1 witness at the spec's example shape (10, 2, 3, 2). -/
theorem claim_C1_witness :
    ValidPosesDataset.build
      (PyObj.ndarray ⟨[10, 2, 3, 2], List.replicate 240 (Scalar.rat 0)⟩)
      PyObj.none PyObj.none PyObj.none PyObj.none PyObj.none =
      .ok (⟨⟨[10, 2, 3, 2], List.replicate 240 (Scalar.rat 0)⟩,
            ⟨[10, 2, 3], List.replicate 60 Scalar.nan⟩,
            ["individual_0", "individual_1"],
            ["keypoint_0", "keypoint_1", "keypoint_2"],
            Option.none, Option.none⟩,
        [Warn.confidenceDefaulted,
          Warn.individualNamesDefaulted ["individual_0", "individual_1"],
          Warn.keypointNamesDefaulted
            ["keypoint_0", "keypoint_1", "keypoint_2"]]) :=
  claim_C1 ⟨[10, 2, 3, 2], List.replicate 240 (Scalar.rat 0)⟩
    (by decide) (by decide)

/-- C2: a position array of rank other than 4 makes PosesRecord
construction fail (whatever the other arguments), with the rank error in
the canonical all-defaults construction; a rank-4 position array with a
trailing axis other than 2 or 3 also fails, with the spatial error. -/
theorem claim_C2 :
    (∀ (p : NDArray) (ca ia ka fa sa : PyObj), p.ndim ≠ 4 →
      exceptOk (ValidPosesDataset.build (PyObj.ndarray p) ca ia ka fa sa) =
        false)
    ∧ (∀ p : NDArray, p.ndim ≠ 4 →
      ValidPosesDataset.build (PyObj.ndarray p) PyObj.none PyObj.none
        PyObj.none PyObj.none PyObj.none =
        .error (.valueError
          ("Expected `position_array` to have 4 dimensions, but got "
            ++ toString p.ndim ++ ".")))
    ∧ (∀ (p : NDArray) (ca ia ka fa sa : PyObj), p.ndim = 4 →
      p.lastDim ∉ ([2, 3] : List Nat) →
      exceptOk (ValidPosesDataset.build (PyObj.ndarray p) ca ia ka fa sa) =
        false)
    ∧ (∀ p : NDArray, p.ndim = 4 → p.lastDim ∉ ([2, 3] : List Nat) →
      ValidPosesDataset.build (PyObj.ndarray p) PyObj.none PyObj.none
        PyObj.none PyObj.none PyObj.none =
        .error (.valueError
          ("Expected `position_array` to have 2 or 3 spatial dimensions, "
            ++ "but got " ++ toString p.lastDim ++ "."))) := by
  have gen : ∀ (p : NDArray) (ca ia ka fa sa : PyObj) (e : PyErr),
      ValidPosesDataset._validate_position_array (PyObj.ndarray p) =
        .error e →
      exceptOk (ValidPosesDataset.build (PyObj.ndarray p) ca ia ka fa sa) =
        false := by
    intro p ca ia ka fa sa e hpa
    cases hia : _list_of_str_opt ia with
    | error e1 => simp [exceptOk, buildPoses_err_ia hia]
    | ok x =>
      obtain ⟨ind, wi⟩ := x
      cases hka : _list_of_str_opt ka with
      | error e2 => simp [exceptOk, buildPoses_err_ka hia hka]
      | ok y =>
        obtain ⟨keyp, wk⟩ := y
        cases hfa : fpsConverter fa with
        | error e3 => simp [exceptOk, buildPoses_err_fa hia hka hfa]
        | ok z =>
          obtain ⟨fv, wf⟩ := z
          simp [exceptOk, buildPoses_err_pos hia hka hfa hpa]
  refine ⟨?_, ?_, ?_, ?_⟩
  · intro p ca ia ka fa sa h4
    exact gen p ca ia ka fa sa _ (validate_position_fail_rank h4)
  · intro p h4
    exact buildPoses_err_pos rfl rfl rfl (validate_position_fail_rank h4)
  · intro p ca ia ka fa sa h4 hs
    exact gen p ca ia ka fa sa _ (validate_position_fail_spatial h4 hs)
  · intro p h4 hs
    exact buildPoses_err_pos rfl rfl rfl (validate_position_fail_spatial h4 hs)

/-- C2 witness: a rank-3 array and a rank-4 array with trailing axis 5. -/
theorem claim_C2_witness :
    ValidPosesDataset.build (PyObj.ndarray ⟨[2, 3, 2], []⟩) PyObj.none
      PyObj.none PyObj.none PyObj.none PyObj.none =
      .error (.valueError
        "Expected `position_array` to have 4 dimensions, but got 3.")
    ∧ ValidPosesDataset.build (PyObj.ndarray ⟨[1, 1, 1, 5], []⟩) PyObj.none
      PyObj.none PyObj.none PyObj.none PyObj.none =
      .error (.valueError
        ("Expected `position_array` to have 2 or 3 spatial dimensions, "
          ++ "but got 5.")) :=
  ⟨claim_C2.2.1 ⟨[2, 3, 2], []⟩ (by decide),
    claim_C2.2.2.2 ⟨[1, 1, 1, 5], []⟩ (by decide) (by decide)⟩

/-- C7: the string-list coercer wraps a bare string with a warning, maps
`str` over any non-string iterable preserving order with no warning, and
rejects anything else with a `ValueError`. -/
theorem claim_C7 :
    (∀ s : String, _list_of_str (PyObj.str s) =
      .ok ([s], [Warn.expectedListOfStr s]))
    ∧ (∀ v : PyObj, v.isStrB = false → v.isIterable = true →
      _list_of_str v = .ok (v.pyIter.map PyObj.pyStr, []))
    ∧ (∀ v : PyObj, v.isStrB = false → v.isIterable = false →
      _list_of_str v = .error (.valueError
        ("Invalid value (" ++ v.pyStr ++ "). Expected a list of strings."))) := by
  refine ⟨fun s => rfl, fun v hstr hit => ?_, fun v hstr hit => ?_⟩
  · cases v <;> simp_all [_list_of_str, PyObj.isStrB]
  · cases v <;> simp_all [_list_of_str, PyObj.isStrB]

/-- C7 witness: a bare string, a heterogeneous list, and an integer. -/
theorem claim_C7_witness :
    _list_of_str (PyObj.str "abc") =
      .ok (["abc"], [Warn.expectedListOfStr "abc"])
    ∧ _list_of_str (PyObj.list [PyObj.int 3, PyObj.str "x"]) =
      .ok (["3", "x"], [])
    ∧ _list_of_str (PyObj.int 3) =
      .error (.valueError "Invalid value (3). Expected a list of strings.") :=
  ⟨claim_C7.1 "abc",
    claim_C7.2.1 (PyObj.list [PyObj.int 3, PyObj.str "x"])
      (by decide) (by decide),
    claim_C7.2.2 (PyObj.int 3) (by decide) (by decide)⟩

/-- C8: a non-positive frameRate still lets construction succeed, stores
`None` for fps and emits the invalid-fps warning; an absent frameRate is
stored as `None` with no fps warning. -/
theorem claim_C8 :
    (∀ (p : NDArray) (q : ℚ), p.ndim = 4 →
      (p.lastDim = 2 ∨ p.lastDim = 3) → q ≤ 0 →
      ValidPosesDataset.build (PyObj.ndarray p) PyObj.none PyObj.none
        PyObj.none (PyObj.float q) PyObj.none =
        .ok (⟨p, npFullNaN p.shape.dropLast,
              (List.range (p.dim 1)).map (fun i =>
                "individual_" ++ toString i),
              (List.range (p.dim 2)).map (fun i =>
                "keypoint_" ++ toString i),
              Option.none, Option.none⟩,
          [Warn.invalidFps q, Warn.confidenceDefaulted,
            Warn.individualNamesDefaulted ((List.range (p.dim 1)).map fun i =>
              "individual_" ++ toString i),
            Warn.keypointNamesDefaulted ((List.range (p.dim 2)).map fun i =>
              "keypoint_" ++ toString i)]))
    ∧ (∀ p : NDArray, p.ndim = 4 → (p.lastDim = 2 ∨ p.lastDim = 3) →
      ∃ r w, ValidPosesDataset.build (PyObj.ndarray p) PyObj.none PyObj.none
          PyObj.none PyObj.none PyObj.none = .ok (r, w)
        ∧ r.fps = Option.none ∧ ∀ q : ℚ, Warn.invalidFps q ∉ w) := by
  have hia : _list_of_str_opt PyObj.none = .ok (Option.none, []) := rfl
  have hca : ∀ p : NDArray,
      ValidPosesDataset._validate_confidence_array p PyObj.none =
        .ok Option.none := fun p => rfl
  have hsa : validateOptionalStr "source_software" PyObj.none =
      .ok Option.none := rfl
  constructor
  · intro p q h4 hs hq
    have h := buildPoses_eval hia hia (fpsConverter_nonpos hq)
      (validate_position_ok h4 hs) (hca p)
      (validate_indnames_none PyObj.none p) (validate_keypnames_none p) hsa
    simpa using h
  · intro p h4 hs
    have h := buildPoses_eval hia hia fpsConverter_none
      (validate_position_ok h4 hs) (hca p)
      (validate_indnames_none PyObj.none p) (validate_keypnames_none p) hsa
    refine ⟨_, _, h, rfl, ?_⟩
    intro q
    simp

/-- C8 witness: frameRate −5 on a (10, 2, 3, 2) position array, and the
same array with frameRate absent. -/
theorem claim_C8_witness :
    ValidPosesDataset.build (PyObj.ndarray ⟨[10, 2, 3, 2], []⟩) PyObj.none
      PyObj.none PyObj.none (PyObj.float (-5)) PyObj.none =
      .ok (⟨⟨[10, 2, 3, 2], []⟩, ⟨[10, 2, 3], List.replicate 60 Scalar.nan⟩,
            ["individual_0", "individual_1"],
            ["keypoint_0", "keypoint_1", "keypoint_2"],
            Option.none, Option.none⟩,
        [Warn.invalidFps (-5), Warn.confidenceDefaulted,
          Warn.individualNamesDefaulted ["individual_0", "individual_1"],
          Warn.keypointNamesDefaulted
            ["keypoint_0", "keypoint_1", "keypoint_2"]])
    ∧ ∃ r w, ValidPosesDataset.build (PyObj.ndarray ⟨[10, 2, 3, 2], []⟩)
        PyObj.none PyObj.none PyObj.none PyObj.none PyObj.none = .ok (r, w)
      ∧ r.fps = Option.none ∧ ∀ q : ℚ, Warn.invalidFps q ∉ w :=
  ⟨claim_C8.1 ⟨[10, 2, 3, 2], []⟩ (-5) (by decide) (by decide) (by decide),
    claim_C8.2 ⟨[10, 2, 3, 2], []⟩ (by decide) (by decide)⟩

/-- The record produced by building with `source_software = "LightningPose"`
and omitted individual names on a position array with two individuals. -/
def lpDefaultedExample : ValidPosesDataset :=
  ⟨⟨[1, 2, 1, 2], List.replicate 4 (Scalar.rat 0)⟩,
    ⟨[1, 2, 1], List.replicate 2 Scalar.nan⟩,
    ["individual_0", "individual_1"], ["keypoint_0"],
    Option.none, some "LightningPose"⟩

/-- C4 counterexample: with `source_software = "LightningPose"` and
individual names omitted, construction on a position array with
`shape[1] = 2` succeeds and the record carries two individuals, so the
claimed single-individual invariant fails. -/
theorem claim_C4_cex :
    ValidPosesDataset.build
      (PyObj.ndarray ⟨[1, 2, 1, 2], List.replicate 4 (Scalar.rat 0)⟩)
      PyObj.none PyObj.none PyObj.none PyObj.none
      (PyObj.str "LightningPose") =
      .ok (lpDefaultedExample,
        [Warn.confidenceDefaulted,
          Warn.individualNamesDefaulted ["individual_0", "individual_1"],
          Warn.keypointNamesDefaulted ["keypoint_0"]])
    ∧ lpDefaultedExample.source_software = some "LightningPose"
    ∧ lpDefaultedExample.position_array.dim 1 = 2
    ∧ lpDefaultedExample.individual_names.length = 2 := by
  refine ⟨?_, rfl, rfl, rfl⟩
  rfl

/-- C4 amended: when `source_software = "LightningPose"` and individual
names are actually supplied, a successful record has exactly one
individual name (the defaulted case and `position.shape[1]` are not
constrained). -/
theorem claim_C4_amended (pa ca ia ka fa sa : PyObj) (r : ValidPosesDataset)
    (w : List Warn) (hia : ia.isNoneB = false)
    (hsa : sa.eqStr "LightningPose" = true)
    (h : ValidPosesDataset.build pa ca ia ka fa sa = .ok (r, w)) :
    r.source_software = some "LightningPose"
    ∧ r.individual_names.length = 1 := by
  obtain ⟨p, conf, ind, keyp, wi, wk, wf, fv, sv, h1, h2, h3, h4, h5, h6, h7,
    h8, h9⟩ := buildPoses_ok_elim h
  obtain ⟨l, rfl⟩ := list_opt_inv h1 hia
  have hsaeq := validate_src_inv h8
  have hsv : sv = some "LightningPose" := by
    rw [hsaeq] at hsa
    exact (srcObj_eqStr sv "LightningPose").mp hsa
  have hlen : l.length = 1 := by
    rw [hsaeq, hsv] at h6
    have h6' : _validate_list_length "individual_names" (some l) 1 =
        .ok () := by
      simpa [ValidPosesDataset._validate_individual_names, srcObj,
        PyObj.eqStr] using h6
    exact list_length_inv h6' l rfl
  subst h9
  exact ⟨hsv, by simpa using hlen⟩

/-- C4 amended witness: LightningPose with one supplied name on a
five-individual position array. -/
theorem claim_C4_amended_witness :
    (⟨⟨[1, 5, 1, 2], []⟩, ⟨[1, 5, 1], List.replicate 5 Scalar.nan⟩,
        ["a"], ["keypoint_0"], Option.none,
        some "LightningPose"⟩ : ValidPosesDataset).source_software =
      some "LightningPose"
    ∧ (⟨⟨[1, 5, 1, 2], []⟩, ⟨[1, 5, 1], List.replicate 5 Scalar.nan⟩,
        ["a"], ["keypoint_0"], Option.none,
        some "LightningPose"⟩ : ValidPosesDataset).individual_names.length =
      1 :=
  claim_C4_amended (PyObj.ndarray ⟨[1, 5, 1, 2], []⟩) PyObj.none
    (PyObj.list [PyObj.str "a"]) PyObj.none PyObj.none
    (PyObj.str "LightningPose")
    ⟨⟨[1, 5, 1, 2], []⟩, ⟨[1, 5, 1], List.replicate 5 Scalar.nan⟩,
      ["a"], ["keypoint_0"], Option.none, some "LightningPose"⟩
    [Warn.confidenceDefaulted, Warn.keypointNamesDefaulted ["keypoint_0"]]
    (by decide) (by decide) (by rfl)

/-- C5: a supplied individualNames list is checked against expected
length 1 when `source_software = "LightningPose"` and against
`position.shape[1]` otherwise; in the LightningPose case a length other
than 1 fails with the length error regardless of `position.shape[1]`. -/
theorem claim_C5 :
    (∀ (p : NDArray) (l : List String), p.ndim = 4 →
      (p.lastDim = 2 ∨ p.lastDim = 3) →
      (exceptOk (ValidPosesDataset.build (PyObj.ndarray p) PyObj.none
        (PyObj.list (l.map PyObj.str)) PyObj.none PyObj.none
        (PyObj.str "LightningPose")) = true ↔ l.length = 1))
    ∧ (∀ (p : NDArray) (l : List String), p.ndim = 4 →
      (p.lastDim = 2 ∨ p.lastDim = 3) →
      (exceptOk (ValidPosesDataset.build (PyObj.ndarray p) PyObj.none
        (PyObj.list (l.map PyObj.str)) PyObj.none PyObj.none
        PyObj.none) = true ↔ l.length = p.dim 1))
    ∧ (∀ (p : NDArray) (l : List String), p.ndim = 4 →
      (p.lastDim = 2 ∨ p.lastDim = 3) → l.length ≠ 1 →
      ValidPosesDataset.build (PyObj.ndarray p) PyObj.none
        (PyObj.list (l.map PyObj.str)) PyObj.none PyObj.none
        (PyObj.str "LightningPose") =
        .error (.valueError ("Expected `individual_names` to have length 1, "
          ++ "but got " ++ toString l.length ++ "."))) := by
  have hka : _list_of_str_opt PyObj.none = .ok (Option.none, []) := rfl
  have hfa : fpsConverter PyObj.none = .ok (Option.none, []) := rfl
  have hca : ∀ p : NDArray,
      ValidPosesDataset._validate_confidence_array p PyObj.none =
        .ok Option.none := fun p => rfl
  have hsaLP : validateOptionalStr "source_software"
      (PyObj.str "LightningPose") = .ok (some "LightningPose") := rfl
  have hsaN : validateOptionalStr "source_software" PyObj.none =
      .ok Option.none := rfl
  have hnone : PyObj.none.eqStr "LightningPose" = false := rfl
  refine ⟨fun p l h4 hs => ⟨fun hok => ?_, fun hlen => ?_⟩,
    fun p l h4 hs => ⟨fun hok => ?_, fun hlen => ?_⟩,
    fun p l h4 hs hne => ?_⟩
  · by_contra hne
    rw [buildPoses_err_ind (list_of_str_opt_strs l) hka hfa
      (validate_position_ok h4 hs) (hca p)
      (validate_indnames_LP_fail p hne)] at hok
    simp [exceptOk] at hok
  · rw [buildPoses_eval (list_of_str_opt_strs l) hka hfa
      (validate_position_ok h4 hs) (hca p)
      (validate_indnames_LP_ok p hlen) (validate_keypnames_none p) hsaLP]
    rfl
  · by_contra hne
    rw [buildPoses_err_ind (list_of_str_opt_strs l) hka hfa
      (validate_position_ok h4 hs) (hca p)
      (validate_indnames_gen_fail hnone hne)] at hok
    simp [exceptOk] at hok
  · rw [buildPoses_eval (list_of_str_opt_strs l) hka hfa
      (validate_position_ok h4 hs) (hca p)
      (validate_indnames_gen_ok hnone hlen) (validate_keypnames_none p) hsaN]
    rfl
  · exact buildPoses_err_ind (list_of_str_opt_strs l) hka hfa
      (validate_position_ok h4 hs) (hca p) (validate_indnames_LP_fail p hne)

/-- C5 witness: LightningPose with one name on a five-individual array
succeeds; with two names it fails with the length-1 error; without
source software two names on a two-individual array succeed. -/
theorem claim_C5_witness :
    (exceptOk (ValidPosesDataset.build (PyObj.ndarray ⟨[1, 5, 1, 2], []⟩)
      PyObj.none (PyObj.list (["a"].map PyObj.str)) PyObj.none PyObj.none
      (PyObj.str "LightningPose")) = true ↔ (["a"] : List String).length = 1)
    ∧ (exceptOk (ValidPosesDataset.build (PyObj.ndarray ⟨[1, 2, 1, 2], []⟩)
      PyObj.none (PyObj.list (["a", "b"].map PyObj.str)) PyObj.none
      PyObj.none PyObj.none) = true ↔
      (["a", "b"] : List String).length = (⟨[1, 2, 1, 2], []⟩ : NDArray).dim 1)
    ∧ ValidPosesDataset.build (PyObj.ndarray ⟨[1, 5, 1, 2], []⟩) PyObj.none
      (PyObj.list (["a", "b"].map PyObj.str)) PyObj.none PyObj.none
      (PyObj.str "LightningPose") =
      .error (.valueError
        "Expected `individual_names` to have length 1, but got 2.") :=
  ⟨claim_C5.1 ⟨[1, 5, 1, 2], []⟩ ["a"] (by decide) (by decide),
    claim_C5.2.1 ⟨[1, 2, 1, 2], []⟩ ["a", "b"] (by decide) (by decide),
    claim_C5.2.2 ⟨[1, 5, 1, 2], []⟩ ["a", "b"] (by decide) (by decide)
      (by decide)⟩

/-- C9 counterexample: feeding back the field values of the LightningPose
record whose individual names were defaulted to two entries fails the
length-1 check, so re-validation is not idempotent for that record. -/
theorem claim_C9_cex :
    ValidPosesDataset.build
      (PyObj.ndarray ⟨[1, 2, 1, 2], List.replicate 4 (Scalar.rat 0)⟩)
      PyObj.none PyObj.none PyObj.none PyObj.none
      (PyObj.str "LightningPose") =
      .ok (lpDefaultedExample,
        [Warn.confidenceDefaulted,
          Warn.individualNamesDefaulted ["individual_0", "individual_1"],
          Warn.keypointNamesDefaulted ["keypoint_0"]])
    ∧ ValidPosesDataset.build
      (PyObj.ndarray lpDefaultedExample.position_array)
      (PyObj.ndarray lpDefaultedExample.confidence_array)
      (PyObj.list (lpDefaultedExample.individual_names.map PyObj.str))
      (PyObj.list (lpDefaultedExample.keypoint_names.map PyObj.str))
      (fpsObj lpDefaultedExample.fps)
      (srcObj lpDefaultedExample.source_software) =
      .error (.valueError
        "Expected `individual_names` to have length 1, but got 2.") := by
  exact ⟨rfl, rfl⟩

/-- C9 amended: re-validating a successfully constructed record's field
values succeeds, emits no warnings and returns the identical record,
except when the record combines `source_software = "LightningPose"` with
an individual-names list of length other than 1 (which arises when names
were defaulted under LightningPose). -/
theorem claim_C9_amended (pa ca ia ka fa sa : PyObj) (r : ValidPosesDataset)
    (w : List Warn)
    (h : ValidPosesDataset.build pa ca ia ka fa sa = .ok (r, w))
    (hLP : r.source_software = some "LightningPose" →
      r.individual_names.length = 1) :
    ValidPosesDataset.build (PyObj.ndarray r.position_array)
      (PyObj.ndarray r.confidence_array)
      (PyObj.list (r.individual_names.map PyObj.str))
      (PyObj.list (r.keypoint_names.map PyObj.str))
      (fpsObj r.fps) (srcObj r.source_software) = .ok (r, []) := by
  obtain ⟨p, conf, ind, keyp, wi, wk, wf, fv, sv, h1, h2, h3, h4, h5, h6, h7,
    h8, h9⟩ := buildPoses_ok_elim h
  obtain ⟨hpaeq, hnd, hsp⟩ := validate_position_inv h4
  have hsaeq := validate_src_inv h8
  subst h9
  have hconf : (conf.getD (npFullNaN p.shape.dropLast)).shape =
      p.shape.dropLast := by
    cases conf with
    | none => rfl
    | some c => exact ((validate_confidence_inv h5) c rfl).1
  have hkeyl : (keyp.getD ((List.range (p.dim 2)).map fun i =>
      "keypoint_" ++ toString i)).length = p.dim 2 := by
    cases keyp with
    | none => simp
    | some l =>
      have h7' : _validate_list_length "keypoint_names" (some l) (p.dim 2) =
          .ok () := h7
      simpa using list_length_inv h7' l rfl
  have hindv : ValidPosesDataset._validate_individual_names (srcObj sv) p
      (some (ind.getD ((List.range (p.dim 1)).map fun i =>
        "individual_" ++ toString i))) = .ok () := by
    by_cases hlp : sv = some "LightningPose"
    · subst hlp
      exact validate_indnames_LP_ok p (hLP rfl)
    · have hns : (srcObj sv).eqStr "LightningPose" = false := by
        rcases hx : (srcObj sv).eqStr "LightningPose" with _ | _
        · rfl
        · exact absurd ((srcObj_eqStr sv "LightningPose").mp hx) hlp
      refine validate_indnames_gen_ok hns ?_
      cases ind with
      | none => simp
      | some l =>
        rw [hsaeq] at h6
        have h6' : _validate_list_length "individual_names" (some l)
            (p.dim 1) = .ok () := by
          simpa [ValidPosesDataset._validate_individual_names, hns] using h6
        simpa using list_length_inv h6' l rfl
  have hre := buildPoses_eval
    (list_of_str_opt_strs (ind.getD ((List.range (p.dim 1)).map fun i =>
      "individual_" ++ toString i)))
    (list_of_str_opt_strs (keyp.getD ((List.range (p.dim 2)).map fun i =>
      "keypoint_" ++ toString i)))
    (fpsObj_conv fv (fps_inv h3))
    (validate_position_ok hnd hsp)
    (validate_confidence_ok hconf)
    hindv
    (validate_keypnames_ok hkeyl)
    (srcObj_validate sv)
  simpa using hre

/-- C9 amended witness: the all-defaults record on a (1, 1, 1, 2) array
re-validates to itself with no warnings. -/
theorem claim_C9_amended_witness :
    ValidPosesDataset.build
      (PyObj.ndarray (⟨⟨[1, 1, 1, 2], []⟩,
        ⟨[1, 1, 1], List.replicate 1 Scalar.nan⟩, ["individual_0"],
        ["keypoint_0"], Option.none,
        Option.none⟩ : ValidPosesDataset).position_array)
      (PyObj.ndarray (⟨⟨[1, 1, 1, 2], []⟩,
        ⟨[1, 1, 1], List.replicate 1 Scalar.nan⟩, ["individual_0"],
        ["keypoint_0"], Option.none,
        Option.none⟩ : ValidPosesDataset).confidence_array)
      (PyObj.list ([("individual_0" : String)].map PyObj.str))
      (PyObj.list ([("keypoint_0" : String)].map PyObj.str))
      (fpsObj Option.none) (srcObj Option.none) =
      .ok (⟨⟨[1, 1, 1, 2], []⟩, ⟨[1, 1, 1], List.replicate 1 Scalar.nan⟩,
        ["individual_0"], ["keypoint_0"], Option.none, Option.none⟩, []) :=
  claim_C9_amended (PyObj.ndarray ⟨[1, 1, 1, 2], []⟩) PyObj.none PyObj.none
    PyObj.none PyObj.none PyObj.none
    ⟨⟨[1, 1, 1, 2], []⟩, ⟨[1, 1, 1], List.replicate 1 Scalar.nan⟩,
      ["individual_0"], ["keypoint_0"], Option.none, Option.none⟩
    [Warn.confidenceDefaulted,
      Warn.individualNamesDefaulted ["individual_0"],
      Warn.keypointNamesDefaulted ["keypoint_0"]]
    (by rfl) (by decide)

/-- Evaluation of `ValidBboxesDataset.build` once every stage's result is
known. -/
lemma buildBboxes_eval {pa sh ca fa sa : PyObj} {iav : PyObj}
    {p s : NDArray} {names : Option (List String)} {wi wf : List Warn}
    {conf : Option NDArray} {fv : Option ℚ} {sv : Option String}
    (hconv : _list_of_str_opt iav = .ok (names, wi))
    (hfa : fpsConverter fa = .ok (fv, wf))
    (hpa : ValidBboxesDataset._validate_centroid_position_and_shape_arrays
      "position_array" pa = .ok p)
    (hsh : ValidBboxesDataset._validate_centroid_position_and_shape_arrays
      "shape_array" sh = .ok s)
    (hnv : ValidBboxesDataset._validate_individual_names p names = .ok ())
    (hca : ValidBboxesDataset._validate_confidence_array p ca = .ok conf)
    (hsa : validateOptionalStr "source_software" sa = .ok sv) :
    ValidBboxesDataset.build pa sh (some iav) ca fa sa =
      .ok (⟨p, s, names, conf.getD (npFullNaN p.shape.dropLast), fv, sv⟩,
        wi ++ wf
          ++ (match conf with
              | some _ => []
              | Option.none => [Warn.confidenceDefaulted])) := by
  simp only [ValidBboxesDataset.build, hconv, hfa, hpa, hsh, hnv, hca, hsa,
    exceptOkBind]
  cases conf <;> rfl

lemma validate_bbox_confidence_fail {p c : NDArray}
    (h : c.shape ≠ p.shape.dropLast) :
    ValidBboxesDataset._validate_confidence_array p (PyObj.ndarray c) =
      .error (.valueError ("Expected `confidence_array` to have shape "
        ++ toString p.shape.dropLast ++ ", but got "
        ++ toString c.shape ++ ".")) := by
  simp [ValidBboxesDataset._validate_confidence_array, _ensure_type_ndarray,
    h]

lemma buildBboxes_err_conf {pa sh ca fa sa : PyObj} {iav : PyObj}
    {p s : NDArray} {names : Option (List String)} {wi wf : List Warn}
    {fv : Option ℚ} {e : PyErr}
    (hconv : _list_of_str_opt iav = .ok (names, wi))
    (hfa : fpsConverter fa = .ok (fv, wf))
    (hpa : ValidBboxesDataset._validate_centroid_position_and_shape_arrays
      "position_array" pa = .ok p)
    (hsh : ValidBboxesDataset._validate_centroid_position_and_shape_arrays
      "shape_array" sh = .ok s)
    (hnv : ValidBboxesDataset._validate_individual_names p names = .ok ())
    (hca : ValidBboxesDataset._validate_confidence_array p ca = .error e) :
    ValidBboxesDataset.build pa sh (some iav) ca fa sa = .error e := by
  simp only [ValidBboxesDataset.build, hconv, hfa, hpa, hsh, hnv, hca,
    exceptOkBind, exceptErrBind]

lemma validate_bbox_indnames_ok {l : List String} {p : NDArray}
    (h : l.length = p.dim 1) :
    ValidBboxesDataset._validate_individual_names p (some l) = .ok () := by
  simp [ValidBboxesDataset._validate_individual_names, list_length_ok h]

/-- C3 counterexample: explicitly supplying `None` for the bboxes
individual names passes validation, reaches the defaulting step with the
names still absent, and yields a successful record storing no names. -/
theorem claim_C3_cex :
    ValidBboxesDataset.build (PyObj.ndarray ⟨[1, 1, 2], []⟩)
      (PyObj.ndarray ⟨[1, 1, 2], []⟩) (some PyObj.none) PyObj.none
      PyObj.none PyObj.none =
      .ok (⟨⟨[1, 1, 2], []⟩, ⟨[1, 1, 2], []⟩, Option.none,
          ⟨[1, 1], List.replicate 1 Scalar.nan⟩, Option.none, Option.none⟩,
        [Warn.confidenceDefaulted]) := rfl

/-- C3 amended: omitting the required individual-names argument fails with
the missing-argument error before any validation, whatever the other
arguments (confidence omitted included); but an explicitly supplied `None`
is accepted and the successful record stores absent names. -/
theorem claim_C3_amended :
    (∀ (pa sh ca fa sa : PyObj),
      ValidBboxesDataset.build pa sh Option.none ca fa sa =
        .error (.typeError ("ValidBboxesDataset.__init__() missing 1 "
          ++ "required keyword-only argument: individual_names")))
    ∧ (∀ (p s : NDArray), p.ndim = 3 → p.lastDim = 2 → s.ndim = 3 →
      s.lastDim = 2 →
      ValidBboxesDataset.build (PyObj.ndarray p) (PyObj.ndarray s)
        (some PyObj.none) PyObj.none PyObj.none PyObj.none =
        .ok (⟨p, s, Option.none, npFullNaN p.shape.dropLast, Option.none,
          Option.none⟩, [Warn.confidenceDefaulted])) := by
  constructor
  · intro pa sh ca fa sa
    rfl
  · intro p s hp3 hp2 hs3 hs2
    have hconv : _list_of_str_opt PyObj.none = .ok (Option.none, []) := rfl
    have hfa : fpsConverter PyObj.none = .ok (Option.none, []) := rfl
    have hnv : ValidBboxesDataset._validate_individual_names p Option.none =
        .ok () := rfl
    have hca : ValidBboxesDataset._validate_confidence_array p PyObj.none =
        .ok Option.none := rfl
    have hsa : validateOptionalStr "source_software" PyObj.none =
        .ok Option.none := rfl
    have h := buildBboxes_eval hconv hfa
      (validate_bbox_array_ok "position_array" hp3 hp2)
      (validate_bbox_array_ok "shape_array" hs3 hs2) hnv hca hsa
    simpa using h

/-- C3 amended witness: omission fails on concrete arrays with confidence
also omitted; explicit `None` succeeds on the same arrays. -/
theorem claim_C3_amended_witness :
    ValidBboxesDataset.build (PyObj.ndarray ⟨[2, 3, 2], []⟩)
      (PyObj.ndarray ⟨[2, 3, 2], []⟩) Option.none PyObj.none PyObj.none
      PyObj.none =
      .error (.typeError ("ValidBboxesDataset.__init__() missing 1 "
        ++ "required keyword-only argument: individual_names"))
    ∧ ValidBboxesDataset.build (PyObj.ndarray ⟨[2, 3, 2], []⟩)
      (PyObj.ndarray ⟨[2, 3, 2], []⟩) (some PyObj.none) PyObj.none
      PyObj.none PyObj.none =
      .ok (⟨⟨[2, 3, 2], []⟩, ⟨[2, 3, 2], []⟩, Option.none,
          npFullNaN [2, 3], Option.none, Option.none⟩,
        [Warn.confidenceDefaulted]) :=
  ⟨claim_C3_amended.1 (PyObj.ndarray ⟨[2, 3, 2], []⟩)
      (PyObj.ndarray ⟨[2, 3, 2], []⟩) PyObj.none PyObj.none PyObj.none,
    claim_C3_amended.2 ⟨[2, 3, 2], []⟩ ⟨[2, 3, 2], []⟩
      (by decide) (by decide) (by decide) (by decide)⟩

/-- C6: in both validators a supplied confidence array must have shape
equal to the (centroid) position shape with the last axis removed:
construction succeeds exactly when the shapes agree, and a mismatch fails
with the shape error. -/
theorem claim_C6 :
    (∀ (p c : NDArray), p.ndim = 4 → (p.lastDim = 2 ∨ p.lastDim = 3) →
      ((exceptOk (ValidPosesDataset.build (PyObj.ndarray p)
        (PyObj.ndarray c) PyObj.none PyObj.none PyObj.none PyObj.none) =
        true ↔ c.shape = p.shape.dropLast)
      ∧ (c.shape ≠ p.shape.dropLast →
        ValidPosesDataset.build (PyObj.ndarray p) (PyObj.ndarray c)
          PyObj.none PyObj.none PyObj.none PyObj.none =
          .error (.valueError ("Expected `confidence_array` to have shape "
            ++ toString p.shape.dropLast ++ ", but got "
            ++ toString c.shape ++ ".")))))
    ∧ (∀ (p s c : NDArray) (l : List String), p.ndim = 3 → p.lastDim = 2 →
      s.ndim = 3 → s.lastDim = 2 → l.length = p.dim 1 →
      ((exceptOk (ValidBboxesDataset.build (PyObj.ndarray p)
        (PyObj.ndarray s) (some (PyObj.list (l.map PyObj.str)))
        (PyObj.ndarray c) PyObj.none PyObj.none) = true ↔
        c.shape = p.shape.dropLast)
      ∧ (c.shape ≠ p.shape.dropLast →
        ValidBboxesDataset.build (PyObj.ndarray p) (PyObj.ndarray s)
          (some (PyObj.list (l.map PyObj.str))) (PyObj.ndarray c)
          PyObj.none PyObj.none =
          .error (.valueError ("Expected `confidence_array` to have shape "
            ++ toString p.shape.dropLast ++ ", but got "
            ++ toString c.shape ++ "."))))) := by
  have hia : _list_of_str_opt PyObj.none = .ok (Option.none, []) := rfl
  have hfa : fpsConverter PyObj.none = .ok (Option.none, []) := rfl
  have hsa : validateOptionalStr "source_software" PyObj.none =
      .ok Option.none := rfl
  constructor
  · intro p c h4 hs
    have hfail : c.shape ≠ p.shape.dropLast →
        ValidPosesDataset.build (PyObj.ndarray p) (PyObj.ndarray c)
          PyObj.none PyObj.none PyObj.none PyObj.none =
          .error (.valueError ("Expected `confidence_array` to have shape "
            ++ toString p.shape.dropLast ++ ", but got "
            ++ toString c.shape ++ ".")) := fun hne =>
      buildPoses_err_conf hia hia hfa (validate_position_ok h4 hs)
        (validate_confidence_fail hne)
    refine ⟨⟨fun hok => ?_, fun hsh => ?_⟩, hfail⟩
    · by_contra hne
      rw [hfail hne] at hok
      simp [exceptOk] at hok
    · rw [buildPoses_eval hia hia hfa (validate_position_ok h4 hs)
        (validate_confidence_ok hsh) (validate_indnames_none PyObj.none p)
        (validate_keypnames_none p) hsa]
      rfl
  · intro p s c l hp3 hp2 hs3 hs2 hl
    have hfail : c.shape ≠ p.shape.dropLast →
        ValidBboxesDataset.build (PyObj.ndarray p) (PyObj.ndarray s)
          (some (PyObj.list (l.map PyObj.str))) (PyObj.ndarray c)
          PyObj.none PyObj.none =
          .error (.valueError ("Expected `confidence_array` to have shape "
            ++ toString p.shape.dropLast ++ ", but got "
            ++ toString c.shape ++ ".")) := fun hne =>
      buildBboxes_err_conf (list_of_str_opt_strs l) hfa
        (validate_bbox_array_ok "position_array" hp3 hp2)
        (validate_bbox_array_ok "shape_array" hs3 hs2)
        (validate_bbox_indnames_ok hl) (validate_bbox_confidence_fail hne)
    refine ⟨⟨fun hok => ?_, fun hsh => ?_⟩, hfail⟩
    · by_contra hne
      rw [hfail hne] at hok
      simp [exceptOk] at hok
    · rw [buildBboxes_eval (list_of_str_opt_strs l) hfa
        (validate_bbox_array_ok "position_array" hp3 hp2)
        (validate_bbox_array_ok "shape_array" hs3 hs2)
        (validate_bbox_indnames_ok hl) (validate_bbox_confidence_ok hsh)
        hsa]
      rfl

/-- C6 witness: matching and mismatching confidence shapes for both
validators. -/
theorem claim_C6_witness :
    ((exceptOk (ValidPosesDataset.build (PyObj.ndarray ⟨[4, 2, 3, 2], []⟩)
      (PyObj.ndarray ⟨[4, 2, 3], []⟩) PyObj.none PyObj.none PyObj.none
      PyObj.none) = true ↔
      ([4, 2, 3] : List Nat) = ([4, 2, 3, 2] : List Nat).dropLast)
    ∧ (([4, 2] : List Nat) ≠ ([4, 2, 3, 2] : List Nat).dropLast →
      ValidPosesDataset.build (PyObj.ndarray ⟨[4, 2, 3, 2], []⟩)
        (PyObj.ndarray ⟨[4, 2], []⟩) PyObj.none PyObj.none PyObj.none
        PyObj.none =
        .error (.valueError ("Expected `confidence_array` to have shape "
          ++ toString ([4, 2, 3, 2] : List Nat).dropLast ++ ", but got "
          ++ toString ([4, 2] : List Nat) ++ "."))))
    ∧ ((exceptOk (ValidBboxesDataset.build (PyObj.ndarray ⟨[4, 2, 2], []⟩)
      (PyObj.ndarray ⟨[4, 2, 2], []⟩)
      (some (PyObj.list ((["a", "b"] : List String).map PyObj.str)))
      (PyObj.ndarray ⟨[4, 2], []⟩) PyObj.none PyObj.none) = true ↔
      ([4, 2] : List Nat) = ([4, 2, 2] : List Nat).dropLast)) := by
  refine ⟨?_, ?_⟩
  · have h := claim_C6.1 ⟨[4, 2, 3, 2], []⟩ ⟨[4, 2, 3], []⟩
      (by decide) (by decide)
    have h2 := claim_C6.1 ⟨[4, 2, 3, 2], []⟩ ⟨[4, 2], []⟩
      (by decide) (by decide)
    exact ⟨h.1, h2.2⟩
  · exact (claim_C6.2 ⟨[4, 2, 2], []⟩ ⟨[4, 2, 2], []⟩ ⟨[4, 2], []⟩
      ["a", "b"] (by decide) (by decide) (by decide) (by decide)
      (by decide)).1

/-- C10: bboxes construction checks `centroidPosition` and `size`
independently (each rank 3 with trailing axis 2) and validates names and
confidence against `centroidPosition` only, so any pair of individually
valid arrays — including pairs with different leading dimensions —
constructs successfully. -/
theorem claim_C10 (p s : NDArray) (names : List String) (hp3 : p.ndim = 3)
    (hp2 : p.lastDim = 2) (hs3 : s.ndim = 3) (hs2 : s.lastDim = 2)
    (hl : names.length = p.dim 1) :
    ValidBboxesDataset.build (PyObj.ndarray p) (PyObj.ndarray s)
      (some (PyObj.list (names.map PyObj.str))) PyObj.none PyObj.none
      PyObj.none =
      .ok (⟨p, s, some names, npFullNaN p.shape.dropLast, Option.none,
        Option.none⟩, [Warn.confidenceDefaulted]) := by
  have hfa : fpsConverter PyObj.none = .ok (Option.none, []) := rfl
  have hca : ValidBboxesDataset._validate_confidence_array p PyObj.none =
      .ok Option.none := rfl
  have hsa : validateOptionalStr "source_software" PyObj.none =
      .ok Option.none := rfl
  have h := buildBboxes_eval (list_of_str_opt_strs names) hfa
    (validate_bbox_array_ok "position_array" hp3 hp2)
    (validate_bbox_array_ok "shape_array" hs3 hs2)
    (validate_bbox_indnames_ok hl) hca hsa
  simpa using h

/-- C10 witness: centroid positions with 1 frame and 1 box together with a
size array with 5 frames and 7 boxes still construct. -/
theorem claim_C10_witness :
    ValidBboxesDataset.build (PyObj.ndarray ⟨[1, 1, 2], []⟩)
      (PyObj.ndarray ⟨[5, 7, 2], []⟩)
      (some (PyObj.list ((["a"] : List String).map PyObj.str))) PyObj.none
      PyObj.none PyObj.none =
      .ok (⟨⟨[1, 1, 2], []⟩, ⟨[5, 7, 2], []⟩, some ["a"], npFullNaN [1, 1],
        Option.none, Option.none⟩, [Warn.confidenceDefaulted]) :=
  claim_C10 ⟨[1, 1, 2], []⟩ ⟨[5, 7, 2], []⟩ ["a"] (by decide) (by decide)
    (by decide) (by decide) (by decide)
